import Mathlib

/-!
Verification development for the `spotify-datapipeline` repository.

The repository consists of two Airflow DAG definition files,
`src/airflow/dags/spotify_etl_dag.py` and `src/airflow/dags/data_quality_dag.py`.
The task graphs, trigger rules, retry configuration and the Python callables
(`check_data_quality_gate`, `collect_dq_metrics`, ...) are embedded below
directly from the source.  The orchestration engine itself (trigger-rule
evaluation, branch pruning, retries, XCom) is Airflow, which is not part of
the repository's sources; those parts are modelled from the specification's
description of the task-graph execution engine (sections 3 to 4.4 of the spec)
and are marked `Modelled from the spec:` in their doc comments.
-/

/-- Modelled from the spec: task status (spec section 3, Task.status).
`running` is omitted: the development only reasons about the statuses a task
holds before evaluation (`pending`) and after resolution (the four terminal
statuses `success`, `failed`, `skipped`, `upstreamFailed`). -/
inductive Status where
  | pending
  | success
  | failed
  | skipped
  | upstreamFailed
deriving DecidableEq, Repr

/-- A status is terminal when it is one of the four resolved statuses. -/
def Status.isTerminal : Status → Bool
  | .pending => false
  | _ => true

/-- Modelled from the spec: the four trigger rules of spec section 3. -/
inductive TriggerRule where
  | allSuccess
  | allDone
  | oneSuccess
  | noneFailedMinOneSuccess
deriving DecidableEq, Repr

/-- Outcome of evaluating a trigger rule against the predecessors'
terminal statuses (spec section 4.3 step 3): either the task fires
(runs its action), or it is resolved without running. -/
inductive Decision where
  | fire
  | markUpstreamFailed
  | markSkipped
deriving DecidableEq, Repr

/-- A status counts against the "none failed" side of a rule when it is
`failed` or `upstreamFailed`. -/
def Status.isFailedLike : Status → Bool
  | .failed => true
  | .upstreamFailed => true
  | _ => false

/-- Modelled from the spec: trigger-rule evaluation, spec section 4.3 step 3.
`allSuccess`: fire only if every predecessor is `success`, else
`upstreamFailed` if any predecessor failed, else `skipped`.
`allDone`: always fire.  `oneSuccess`: fire if some predecessor succeeded,
else skip.  `noneFailedMinOneSuccess`: a task with no predecessors fires;
otherwise fire iff no predecessor is failed-like and at least one is
`success`; all-skipped predecessors yield `skipped`. -/
def evalTrigger : TriggerRule → List Status → Decision
  | .allSuccess, l =>
      if l.all (· == .success) then .fire
      else if l.any (·.isFailedLike) then .markUpstreamFailed
      else .markSkipped
  | .allDone, _ => .fire
  | .oneSuccess, l =>
      if l.any (· == .success) then .fire else .markSkipped
  | .noneFailedMinOneSuccess, l =>
      if l.isEmpty then .fire
      else if l.any (·.isFailedLike) then .markUpstreamFailed
      else if l.any (· == .success) then .fire
      else .markSkipped

/-- Modelled from the spec: a Graph is a task set plus directed edges
(spec section 3, Graph); groups are flattened into their member tasks. -/
structure Graph where
  tasks : List String
  edges : List (String × String)

/-- Direct predecessors of a task: sources of the edges into it. -/
def Graph.preds (g : Graph) (t : String) : List String :=
  (g.edges.filter (fun e => e.2 = t)).map (fun e => e.1)

/-- Direct successors of a task: targets of the edges out of it. -/
def Graph.succs (g : Graph) (t : String) : List String :=
  (g.edges.filter (fun e => e.1 = t)).map (fun e => e.2)

/-- Per-run status table (spec section 3, Run): each task's mutable status. -/
def StatusMap : Type := String → Status

/-- Assign status `v` to task `t`. -/
def setStatus (st : StatusMap) (t : String) (v : Status) : StatusMap :=
  fun x => if x = t then v else st x

/-- Result of invoking a task's action (spec section 6, task action
interface): ordinary success or failure, or, for a branch resolver,
the list of chosen downstream ids. -/
inductive ActionResult where
  | ok
  | fail
  | branch (chosen : List String)
deriving DecidableEq, Repr

/-- Modelled from the spec: branch pruning (spec section 4.3 step 5).
Every direct successor of the resolver that is not among the chosen ids
is transitioned immediately to `skipped`; successors that already hold a
status are left alone. -/
def pruneSiblings (succs chosen : List String) (st : StatusMap) : StatusMap :=
  succs.foldl
    (fun acc s =>
      if s ∈ chosen then acc
      else if acc s = .pending then setStatus acc s .skipped
      else acc)
    st

/-- Modelled from the spec: one scheduler step (spec section 4.3 steps 3 to 5).
When task `t` becomes eligible: if it was already resolved (e.g. pruned by an
upstream branch resolver) nothing happens; otherwise its trigger rule is
evaluated against its direct predecessors' statuses, and it either runs its
action (recording `success`/`failed`, and pruning unchosen siblings when the
action is a branch choice) or is resolved `upstreamFailed`/`skipped` without
its action being invoked. -/
def execTask (g : Graph) (rules : String → TriggerRule)
    (outcome : String → ActionResult) (st : StatusMap) (t : String) : StatusMap :=
  if st t ≠ .pending then st
  else
    match evalTrigger (rules t) ((g.preds t).map st) with
    | .fire =>
        match outcome t with
        | .ok => setStatus st t .success
        | .fail => setStatus st t .failed
        | .branch chosen => pruneSiblings (g.succs t) chosen (setStatus st t .success)
    | .markUpstreamFailed => setStatus st t .upstreamFailed
    | .markSkipped => setStatus st t .skipped

/-- Fold a list of tasks through the scheduler step, starting from `st`. -/
def runFrom (g : Graph) (rules : String → TriggerRule)
    (outcome : String → ActionResult) (st : StatusMap) (order : List String) : StatusMap :=
  order.foldl (execTask g rules outcome) st

/-- Modelled from the spec: a whole run (spec section 4.3): every task starts
`pending` and the scheduler processes the tasks in a dependency-respecting
order. -/
def runSched (g : Graph) (rules : String → TriggerRule)
    (outcome : String → ActionResult) (order : List String) : StatusMap :=
  runFrom g rules outcome (fun _ => .pending) order

/-- `order` is a topological processing order for `g`: predecessors of the
tasks in `order` are themselves in `order`, no task is its own predecessor,
and no task is a predecessor of an earlier task. -/
def TopoOrder (g : Graph) (order : List String) : Prop :=
  (∀ t ∈ order, ∀ p ∈ g.preds t, p ∈ order ∧ p ≠ t) ∧
    order.Pairwise (fun a b => b ∉ g.preds a)

instance (g : Graph) (order : List String) : Decidable (TopoOrder g order) := by
  unfold TopoOrder
  infer_instance

/-!
The `spotify_etl_pipeline` DAG of `src/airflow/dags/spotify_etl_dag.py`.
Task ids are the Airflow ids, with task-group members prefixed by their
group id, as Airflow does.  The edges are the dependency statements of
lines 183, 220 and 253-256 of the source, with the task groups flattened
(group-to-group wiring connects the exits of one group to the roots of
the next). -/

/-- The task ids of the `spotify_etl_pipeline` DAG, in the order the
scheduler may process them (a topological order of the dependency edges). -/
def pipelineTasks : List String :=
  ["start",
   "extract.download_kaggle_data",
   "load.ensure_raw_schema",
   "load.load_to_postgres",
   "dbt_tasks.dbt_deps",
   "dbt_tasks.dbt_seed",
   "dbt_tasks.dbt_run_staging",
   "dbt_tasks.dbt_run_intermediate",
   "dbt_tasks.dbt_run_marts",
   "dbt_tasks.dbt_test",
   "quality_gate",
   "quality_passed",
   "quality_failed",
   "reporting.generate_dq_report",
   "reporting.generate_docs",
   "end"]

/-- The dependency edges of the `spotify_etl_pipeline` DAG
(source lines 183, 220, 253-256). -/
def pipelineEdges : List (String × String) :=
  [("start", "extract.download_kaggle_data"),
   ("extract.download_kaggle_data", "load.ensure_raw_schema"),
   ("load.ensure_raw_schema", "load.load_to_postgres"),
   ("load.load_to_postgres", "dbt_tasks.dbt_deps"),
   ("dbt_tasks.dbt_deps", "dbt_tasks.dbt_seed"),
   ("dbt_tasks.dbt_seed", "dbt_tasks.dbt_run_staging"),
   ("dbt_tasks.dbt_run_staging", "dbt_tasks.dbt_run_intermediate"),
   ("dbt_tasks.dbt_run_intermediate", "dbt_tasks.dbt_run_marts"),
   ("dbt_tasks.dbt_run_marts", "dbt_tasks.dbt_test"),
   ("dbt_tasks.dbt_test", "quality_gate"),
   ("quality_gate", "quality_passed"),
   ("quality_gate", "quality_failed"),
   ("quality_passed", "reporting.generate_dq_report"),
   ("quality_passed", "reporting.generate_docs"),
   ("reporting.generate_dq_report", "end"),
   ("reporting.generate_docs", "end"),
   ("quality_failed", "end")]

/-- The `spotify_etl_pipeline` task graph. -/
def pipelineGraph : Graph :=
  { tasks := pipelineTasks, edges := pipelineEdges }

/-- Trigger rules of the DAG: `end` is declared with
`trigger_rule='none_failed_min_one_success'` (source lines 152-155);
every other task keeps the Airflow default `all_success`. -/
def pipelineRules (t : String) : TriggerRule :=
  if t = "end" then .noneFailedMinOneSuccess else .allSuccess

/-- Outcome assignment in which exactly the named task fails and every other
task's action succeeds (the branch resolver's choice is never consulted when
it does not fire). -/
def failOnly (u : String) : String → ActionResult :=
  fun t => if t = u then .fail else .ok

/-- Outcome assignment in which every action succeeds and the branch resolver
`quality_gate` chooses the given successor, mirroring the string returned by
`check_data_quality_gate`. -/
def chooseBranch (pick : String) : String → ActionResult :=
  fun t => if t = "quality_gate" then .branch [pick] else .ok

/-- The tasks strictly between `start` and `quality_gate` in the DAG:
everything upstream of the quality gate apart from `start` itself. -/
def gateUpstream : List String :=
  ["extract.download_kaggle_data", "load.ensure_raw_schema", "load.load_to_postgres",
   "dbt_tasks.dbt_deps", "dbt_tasks.dbt_seed", "dbt_tasks.dbt_run_staging",
   "dbt_tasks.dbt_run_intermediate", "dbt_tasks.dbt_run_marts", "dbt_tasks.dbt_test"]

/-- The `default_args` dictionary of `spotify_etl_dag.py` lines 30-39
(the fields with scalar values; emails and the timedelta units are kept
as their numbers). -/
structure EtlDefaultArgs where
  owner : String
  depends_on_past : Bool
  email_on_failure : Bool
  email_on_retry : Bool
  retries : Nat
  retry_delay_minutes : Nat
  execution_timeout_hours : Nat

/-- `default_args` of the ETL DAG: every task of the DAG inherits
`retries := 2`. -/
def etl_default_args : EtlDefaultArgs :=
  { owner := "data_engineering"
    depends_on_past := false
    email_on_failure := true
    email_on_retry := false
    retries := 2
    retry_delay_minutes := 5
    execution_timeout_hours := 1 }

/-- Modelled from the spec: retry loop of spec section 4.3 step 4.  `action`
maps the attempt index to whether that invocation succeeds; the task retries
up to `retriesLeft` more times after a failed attempt.  Returns the terminal
status together with the total number of invocations made, counting from the
first attempt (`attempt` is the index of the current attempt). -/
def runWithRetries (action : Nat → Bool) : Nat → Nat → Status × Nat
  | retriesLeft, attempt =>
    if action attempt then (.success, attempt + 1)
    else
      match retriesLeft with
      | 0 => (.failed, attempt + 1)
      | n + 1 => runWithRetries action n (attempt + 1)

/-- Modelled from the spec: Run Context errors (spec section 4.2). -/
inductive XcomError where
  | keyNotFound
  | duplicateKey
deriving DecidableEq, Repr

/-- Modelled from the spec: the Run Context, a mapping from
`(task_id, key)` to a published value (spec section 3, Run Context). -/
def RunCtx (α : Type) : Type := List ((String × String) × α)

/-- Modelled from the spec: `Read(taskId, key)` returns the published value
or fails `KeyNotFound` if the producer never published (spec section 4.2). -/
def ctxRead {α : Type} (ctx : RunCtx α) (taskId key : String) : Except XcomError α :=
  match List.lookup (taskId, key) ctx with
  | some v => .ok v
  | none => .error .keyNotFound

/-- Modelled from the spec: `Publish(taskId, key, value)`; re-publishing the
same key is an error `DuplicateKey` (spec section 4.2). -/
def ctxPublish {α : Type} (ctx : RunCtx α) (taskId key : String) (v : α) :
    Except XcomError (RunCtx α) :=
  match List.lookup (taskId, key) ctx with
  | some _ => .error .duplicateKey
  | none => .ok (((taskId, key), v) :: ctx)

/-- The XCom key `'dataset_path'` pushed by `download_kaggle_dataset`
(source line 56) and pulled by `load_to_postgres` (source line 69). -/
def dataset_path_key : String := "dataset_path"

/-- The flattened id of the task whose callable pushes `'dataset_path'`. -/
def dataset_path_producer : String := "extract.download_kaggle_data"

/-- Does the pattern occur as a contiguous substring of the character list? -/
def hasSub (pat : List Char) : List Char → Bool
  | [] => pat.isEmpty
  | c :: rest => pat.isPrefixOf (c :: rest) || hasSub pat rest

/-- Substring test on strings, via their character lists
(Python's `in` operator on `str`). -/
def strContainsSub (s pat : String) : Bool := hasSub pat.data s.data

/-- Suffix test on strings, via their character lists. -/
def strEndsWithSub (s pat : String) : Bool := pat.data.isSuffixOf s.data

/-- Python's `str(...)` on an optional string: `None` prints as `"None"`. -/
def pyStr : Option String → String
  | none => "None"
  | some s => s

/-- Python's `str.upper()`: upper-case every character (character-wise, as
`String.map Char.toUpper`, but expressed over the character list so that it
evaluates by `decide`). -/
def pyUpper (s : String) : String := String.mk (s.data.map Char.toUpper)

/-- Python truthiness of an optional string: `None` and the empty string are
falsy. -/
def pyTruthy : Option String → Bool
  | none => false
  | some s => !s.isEmpty

/-- `check_data_quality_gate` (spotify_etl_dag.py lines 118-129): the branch
callable of `quality_gate`.  `test_output` is the value pulled from the
`dbt_tasks.dbt_test` task; the gate returns `'quality_passed'` iff the pull
is truthy and `'FAIL'` does not occur in its upper-cased rendering. -/
def check_data_quality_gate (test_output : Option String) : String :=
  if pyTruthy test_output && !strContainsSub (pyUpper (pyStr test_output)) "FAIL"
  then "quality_passed"
  else "quality_failed"

/-- The default of the `DBT_PROFILES_DIR` environment lookup
(spotify_etl_dag.py line 42). -/
def dbt_project_dir_default : String := "/opt/airflow/dbt"

/-- The `bash_command` of the `dbt_test` task (spotify_etl_dag.py
lines 214-217), as a function of the `DBT_PROJECT_DIR` value interpolated
into the f-string. -/
def dbt_test_bash_command (dbtProjectDir : String) : String :=
  "cd " ++ dbtProjectDir ++ " && dbt test --profiles-dir " ++ dbtProjectDir ++
    " --store-failures || true"

/-- Shell semantics of a BashOperator command: a command of the shape
`... || true` exits 0, hence the task succeeds; otherwise the task succeeds
iff the command's own exit code is 0 (a non-zero exit is the "non-zero
abnormal completion" of spec section 4.3 step 4). -/
def bashTaskStatus (cmd : String) (innerExit : Nat) : Status :=
  if strEndsWithSub cmd "|| true" then .success
  else if innerExit = 0 then .success
  else .failed

/-!
The `data_quality_monitoring` DAG of `src/airflow/dags/data_quality_dag.py`:
the `collect_dq_metrics` callable (lines 46-154). -/

/-- The metrics dictionary built by `collect_dq_metrics`: the three fixed
keys `'run_id'`, `'run_timestamp'` and `'dimensions'`, the latter a mapping
from dimension name to metric name/value pairs.  Metric values are modelled
as rationals. -/
structure DqMetrics where
  run_id : String
  run_timestamp : String
  dimensions : List (String × List (String × ℚ))

/-- The database accesses `collect_dq_metrics` performs through its
`PostgresHook`: the three `get_first` queries (each may raise, and may
return no row), and the per-metric insert (which may raise). -/
structure DbOracle where
  completenessQuery : Except String (Option (Nat × Nat × Nat × Nat × Nat))
  uniquenessQuery : Except String (Option (Nat × Nat))
  accuracyQuery : Except String (Option (Nat × Nat × Nat × Nat))
  insertMetric : String → String → ℚ → Bool → Except String Unit

/-- Python's `round(x, n)` on the rational model of the metric values. -/
def pyRound (x : ℚ) (n : Nat) : ℚ :=
  ((round (x * (10 : ℚ) ^ n) : ℤ) : ℚ) / (10 : ℚ) ^ n

/-- `collect_dq_metrics` (data_quality_dag.py lines 46-154).  Each of the
three metrics queries is wrapped in a `try/except` that only prints, so a
raising query merely leaves its dimension out of `metrics['dimensions']`;
each insert of the storage loop is likewise wrapped, so a raising insert is
ignored.  Returns the metrics dictionary together with the insert log
(metric name and whether the insert succeeded). -/
def collect_dq_metrics (oracle : DbOracle) (run_id run_timestamp : String) :
    DqMetrics × List (String × Bool) :=
  let dims0 : List (String × List (String × ℚ)) := []
  let dims1 :=
    match oracle.completenessQuery with
    | .error _ => dims0
    | .ok none => dims0
    | .ok (some (total, trackName, genre, country, _artists)) =>
        if 0 < total then
          dims0 ++ [("completeness",
            [("total_rows", (total : ℚ)),
             ("track_name_ratio",
               if 0 < total then pyRound ((trackName : ℚ) / (total : ℚ)) 4 else 0),
             ("genre_ratio",
               if 0 < total then pyRound ((genre : ℚ) / (total : ℚ)) 4 else 0),
             ("country_ratio",
               if 0 < total then pyRound ((country : ℚ) / (total : ℚ)) 4 else 0)])]
        else dims0
  let dims2 :=
    match oracle.uniquenessQuery with
    | .error _ => dims1
    | .ok none => dims1
    | .ok (some (total, uniq)) =>
        if 0 < total then
          dims1 ++ [("uniqueness",
            [("total_records", (total : ℚ)),
             ("unique_records", (uniq : ℚ)),
             ("duplicate_ratio",
               if 0 < total then pyRound (1 - (uniq : ℚ) / (total : ℚ)) 6 else 0)])]
        else dims1
  let dims3 :=
    match oracle.accuracyQuery with
    | .error _ => dims2
    | .ok none => dims2
    | .ok (some (total, pop, dance, energy)) =>
        if 0 < total then
          dims2 ++ [("accuracy",
            [("popularity_valid_ratio",
               if 0 < total then pyRound ((pop : ℚ) / (total : ℚ)) 4 else 0),
             ("danceability_valid_ratio",
               if 0 < total then pyRound ((dance : ℚ) / (total : ℚ)) 4 else 0),
             ("energy_valid_ratio",
               if 0 < total then pyRound ((energy : ℚ) / (total : ℚ)) 4 else 0)])]
        else dims2
  let insertLog :=
    (dims3.map (fun dv =>
      dv.2.map (fun mv =>
        let threshold : Option ℚ :=
          if strContainsSub mv.1 "ratio" then some (95 / 100) else none
        let passed : Bool :=
          match threshold with
          | some th => decide (th ≤ mv.2)
          | none => true
        (mv.1,
         match oracle.insertMetric (dv.1.capitalize) mv.1 mv.2 passed with
         | .ok _ => true
         | .error _ => false)))).flatten
  ({ run_id := run_id, run_timestamp := run_timestamp, dimensions := dims3 },
   insertLog)

/-- A database oracle in which every query and every insert raises. -/
def failingOracle : DbOracle :=
  { completenessQuery := .error "connection refused"
    uniquenessQuery := .error "connection refused"
    accuracyQuery := .error "connection refused"
    insertMetric := fun _ _ _ _ => .error "connection refused" }

/-!  Scheduler invariants used by several claims. -/

/-- `setStatus` leaves every other task alone. -/
theorem setStatus_ne (st : StatusMap) (t : String) (v : Status) (x : String)
    (hx : x ≠ t) : setStatus st t v x = st x := by
  simp [setStatus, hx]

/-- Unfolding equation for `pruneSiblings` on a cons cell. -/
theorem pruneSiblings_cons (s : String) (rest chosen : List String) (st : StatusMap) :
    pruneSiblings (s :: rest) chosen st =
      pruneSiblings rest chosen
        (if s ∈ chosen then st
         else if st s = .pending then setStatus st s .skipped else st) := rfl

/-- Branch pruning never touches a task that already holds a status. -/
theorem pruneSiblings_of_ne_pending (succs chosen : List String)
    (st : StatusMap) (x : String) (hx : st x ≠ .pending) :
    pruneSiblings succs chosen st x = st x := by
  induction succs generalizing st with
  | nil => rfl
  | cons s rest ih =>
    rw [pruneSiblings_cons]
    by_cases hmem : s ∈ chosen
    · simp only [if_pos hmem]
      exact ih st hx
    · simp only [if_neg hmem]
      by_cases hp : st s = Status.pending
      · simp only [if_pos hp]
        have hxs : x ≠ s := fun h => hx (h ▸ hp)
        have h₁ : setStatus st s Status.skipped x = st x := setStatus_ne st s _ x hxs
        rw [ih (setStatus st s Status.skipped) (by rw [h₁]; exact hx), h₁]
      · simp only [if_neg hp]
        exact ih st hx

/-- A scheduler step never changes a task that already holds a status:
statuses are assigned at most once and never regress. -/
theorem execTask_of_ne_pending (g : Graph) (rules : String → TriggerRule)
    (outcome : String → ActionResult) (st : StatusMap) (t x : String)
    (hx : st x ≠ .pending) : execTask g rules outcome st t x = st x := by
  unfold execTask
  by_cases ht : st t ≠ Status.pending
  · simp [ht]
  · push_neg at ht
    have hxt : x ≠ t := fun h => hx (h ▸ ht)
    simp only [ht, ne_eq, not_true_eq_false, if_false]
    cases evalTrigger (rules t) ((g.preds t).map st) with
    | fire =>
      cases outcome t with
      | ok => exact setStatus_ne st t _ x hxt
      | fail => exact setStatus_ne st t _ x hxt
      | branch chosen =>
        show pruneSiblings (g.succs t) chosen (setStatus st t Status.success) x = st x
        have h₁ : setStatus st t Status.success x = st x := setStatus_ne st t _ x hxt
        rw [pruneSiblings_of_ne_pending _ _ _ x (by rw [h₁]; exact hx), h₁]
    | markUpstreamFailed => exact setStatus_ne st t _ x hxt
    | markSkipped => exact setStatus_ne st t _ x hxt

/-- A scheduler step resolves the processed task: afterwards it is never
`pending`. -/
theorem execTask_self_ne_pending (g : Graph) (rules : String → TriggerRule)
    (outcome : String → ActionResult) (st : StatusMap) (t : String) :
    execTask g rules outcome st t t ≠ .pending := by
  unfold execTask
  by_cases ht : st t ≠ Status.pending
  · simp only [if_pos ht]
    exact ht
  · push_neg at ht
    simp only [ht, ne_eq, not_true_eq_false, if_false]
    cases evalTrigger (rules t) ((g.preds t).map st) with
    | fire =>
      cases outcome t with
      | ok => simp [setStatus]
      | fail => simp [setStatus]
      | branch chosen =>
        show pruneSiblings (g.succs t) chosen (setStatus st t Status.success) t ≠ Status.pending
        have h₁ : setStatus st t Status.success t = Status.success := by simp [setStatus]
        rw [pruneSiblings_of_ne_pending _ _ _ t (by rw [h₁]; simp), h₁]
        simp
    | markUpstreamFailed => simp [setStatus]
    | markSkipped => simp [setStatus]

/-- Unfolding equation for `runFrom` on a cons cell. -/
theorem runFrom_cons (g : Graph) (rules : String → TriggerRule)
    (outcome : String → ActionResult) (st : StatusMap) (t : String)
    (rest : List String) :
    runFrom g rules outcome st (t :: rest) =
      runFrom g rules outcome (execTask g rules outcome st t) rest := rfl

/-- Folding further scheduler steps never changes an already-resolved task. -/
theorem runFrom_of_ne_pending (g : Graph) (rules : String → TriggerRule)
    (outcome : String → ActionResult) (order : List String) (st : StatusMap)
    (x : String) (hx : st x ≠ .pending) :
    runFrom g rules outcome st order x = st x := by
  induction order generalizing st with
  | nil => rfl
  | cons t rest ih =>
    rw [runFrom_cons]
    have h₁ : execTask g rules outcome st t x = st x :=
      execTask_of_ne_pending g rules outcome st t x hx
    rw [ih (execTask g rules outcome st t) (by rw [h₁]; exact hx), h₁]

/-- Every task that is processed ends up resolved (not `pending`). -/
theorem runFrom_mem_ne_pending (g : Graph) (rules : String → TriggerRule)
    (outcome : String → ActionResult) (order : List String) (st : StatusMap)
    (x : String) (hx : x ∈ order) :
    runFrom g rules outcome st order x ≠ .pending := by
  induction order generalizing st with
  | nil => cases hx
  | cons t rest ih =>
    rw [runFrom_cons]
    rcases List.mem_cons.mp hx with h | h
    · subst h
      have h₁ : execTask g rules outcome st x x ≠ .pending :=
        execTask_self_ne_pending g rules outcome st x
      rw [runFrom_of_ne_pending g rules outcome rest _ x h₁]
      exact h₁
    · exact ih _ h

/-- A task whose trigger rule does not fire is resolved without its action
being invoked: the scheduler step does not depend on the outcome function. -/
theorem execTask_congr_outcome (g : Graph) (rules : String → TriggerRule)
    (o₁ o₂ : String → ActionResult) (st : StatusMap) (t : String)
    (h : evalTrigger (rules t) ((g.preds t).map st) ≠ .fire) :
    execTask g rules o₁ st t = execTask g rules o₂ st t := by
  unfold execTask
  by_cases ht : st t ≠ Status.pending
  · simp [ht]
  · push_neg at ht
    simp only [ht, ne_eq, not_true_eq_false, if_false]
    cases hd : evalTrigger (rules t) ((g.preds t).map st) with
    | fire => exact absurd hd h
    | markUpstreamFailed => rfl
    | markSkipped => rfl

/-- A suffix of a list is a suffix of any left extension of it. -/
theorem suffix_extend {α : Type} (l l₂ : List α) (l₁ : List α)
    (h : l <:+ l₂) : l <:+ l₁ ++ l₂ :=
  h.trans (List.suffix_append l₁ l₂)

/-- A status is terminal exactly when it is not `pending`. -/
theorem isTerminal_iff_ne_pending (s : Status) :
    s.isTerminal = true ↔ s ≠ .pending := by
  cases s <;> simp [Status.isTerminal]

/-- In a topological order, every predecessor of a task occurs strictly
before it. -/
theorem topoOrder_split (g : Graph) (order l₁ l₂ : List String) (t : String)
    (htopo : TopoOrder g order) (heq : order = l₁ ++ t :: l₂)
    (p : String) (hp : p ∈ g.preds t) : p ∈ l₁ := by
  have htmem : t ∈ order := by
    rw [heq]; exact List.mem_append_right _ (List.mem_cons_self t l₂)
  obtain ⟨hpord, hpt⟩ := htopo.1 t htmem p hp
  rw [heq] at hpord
  rcases List.mem_append.mp hpord with h | h
  · exact h
  · rcases List.mem_cons.mp h with h | h
    · exact absurd h hpt
    · exfalso
      have hpw : List.Pairwise (fun a b => b ∉ g.preds a) (t :: l₂) := by
        have hsub : List.Sublist (t :: l₂) order := by
          rw [heq]; exact List.sublist_append_right l₁ (t :: l₂)
        exact htopo.2.sublist hsub
      exact (List.pairwise_cons.mp hpw).1 p h hp

/-- Running over a concatenation runs the second part from the state the
first part produced. -/
theorem runSched_append (g : Graph) (rules : String → TriggerRule)
    (outcome : String → ActionResult) (l₁ l₂ : List String) :
    runSched g rules outcome (l₁ ++ l₂) =
      runFrom g rules outcome (runSched g rules outcome l₁) l₂ := by
  unfold runSched runFrom
  exact List.foldl_append _ _ l₁ l₂

/-- The pipeline's declared task list is a topological order of its edges. -/
theorem pipeline_topoOrder : TopoOrder pipelineGraph pipelineTasks := by decide

/-- C3.  The trigger rule `NoneFailedMinOneSuccess` — the rule of the `end`
task of the ETL DAG — fires on predecessors `{Success, Skipped}` and on an
empty predecessor set, resolves `UpstreamFailed` whenever some predecessor
is `Failed` or `UpstreamFailed`, and resolves `Skipped` when the (nonempty)
predecessors are all `Skipped`. -/
theorem claim_C3_none_failed_min_one_success :
    pipelineRules "end" = .noneFailedMinOneSuccess ∧
    evalTrigger .noneFailedMinOneSuccess [.success, .skipped] = .fire ∧
    evalTrigger .noneFailedMinOneSuccess [] = .fire ∧
    (∀ l : List Status, .failed ∈ l →
      evalTrigger .noneFailedMinOneSuccess l = .markUpstreamFailed) ∧
    (∀ l : List Status, .upstreamFailed ∈ l →
      evalTrigger .noneFailedMinOneSuccess l = .markUpstreamFailed) ∧
    (∀ l : List Status, l ≠ [] → (∀ s ∈ l, s = .skipped) →
      evalTrigger .noneFailedMinOneSuccess l = .markSkipped) := by
  refine ⟨rfl, rfl, rfl, ?_, ?_, ?_⟩
  · intro l hl
    have hne : l ≠ [] := List.ne_nil_of_mem hl
    have hany : l.any (·.isFailedLike) = true :=
      List.any_eq_true.mpr ⟨.failed, hl, rfl⟩
    simp [evalTrigger, hany, List.isEmpty_iff, hne]
  · intro l hl
    have hne : l ≠ [] := List.ne_nil_of_mem hl
    have hany : l.any (·.isFailedLike) = true :=
      List.any_eq_true.mpr ⟨.upstreamFailed, hl, rfl⟩
    simp [evalTrigger, hany, List.isEmpty_iff, hne]
  · intro l hne hall
    have hnofail : l.any (·.isFailedLike) = false := by
      rw [List.any_eq_false]
      intro s hs
      rw [hall s hs]
      simp [Status.isFailedLike]
    have hnosucc : l.any (· == Status.success) = false := by
      rw [List.any_eq_false]
      intro s hs
      rw [hall s hs]
      simp
    simp [evalTrigger, hnofail, hnosucc, List.isEmpty_iff, hne]

/-- C3 witness: the `NoneFailedMinOneSuccess` facts at concrete predecessor
lists. -/
theorem claim_C3_witness :
    evalTrigger .noneFailedMinOneSuccess [.success, .failed] = .markUpstreamFailed ∧
    evalTrigger .noneFailedMinOneSuccess [.upstreamFailed] = .markUpstreamFailed ∧
    evalTrigger .noneFailedMinOneSuccess [.skipped, .skipped] = .markSkipped :=
  ⟨claim_C3_none_failed_min_one_success.2.2.2.1 [.success, .failed] (by decide),
   claim_C3_none_failed_min_one_success.2.2.2.2.1 [.upstreamFailed] (by decide),
   claim_C3_none_failed_min_one_success.2.2.2.2.2 [.skipped, .skipped] (by decide)
     (by decide)⟩

/-- C4.  The default trigger rule `AllSuccess` — the rule of
`quality_passed`, `quality_failed` and every non-`end` task of the ETL
DAG — fires exactly when every predecessor is `Success`; any `Failed` or
`UpstreamFailed` predecessor resolves the task `UpstreamFailed`, a
`Skipped` predecessor with no failures resolves it `Skipped`; in
particular predecessors `{Success, Failed}` give `UpstreamFailed`, and a
task whose rule does not fire is resolved without its action being
invoked. -/
theorem claim_C4_all_success :
    pipelineRules "quality_passed" = .allSuccess ∧
    pipelineRules "quality_failed" = .allSuccess ∧
    (∀ t ∈ pipelineTasks, t ≠ "end" → pipelineRules t = .allSuccess) ∧
    (∀ l : List Status, evalTrigger .allSuccess l = .fire ↔ ∀ s ∈ l, s = .success) ∧
    (∀ l : List Status, .failed ∈ l ∨ .upstreamFailed ∈ l →
      evalTrigger .allSuccess l = .markUpstreamFailed) ∧
    (∀ l : List Status, .skipped ∈ l → (∀ s ∈ l, s.isFailedLike = false) →
      evalTrigger .allSuccess l = .markSkipped) ∧
    evalTrigger .allSuccess [.success, .failed] = .markUpstreamFailed ∧
    (∀ (o₁ o₂ : String → ActionResult) (st : StatusMap) (t : String),
      evalTrigger (pipelineRules t) ((pipelineGraph.preds t).map st) ≠ .fire →
      execTask pipelineGraph pipelineRules o₁ st t
        = execTask pipelineGraph pipelineRules o₂ st t) := by
  refine ⟨rfl, rfl, ?_, ?_, ?_, ?_, rfl, ?_⟩
  · intro t _ hne
    simp [pipelineRules, hne]
  · intro l
    constructor
    · intro h s hs
      by_contra hne
      have hall : l.all (· == Status.success) = false := by
        rw [List.all_eq_false]
        exact ⟨s, hs, by simpa using hne⟩
      have hne' : evalTrigger .allSuccess l ≠ .fire := by
        show (if l.all (· == Status.success) then Decision.fire
              else if l.any (·.isFailedLike) then Decision.markUpstreamFailed
              else Decision.markSkipped) ≠ .fire
        rw [hall]
        by_cases hany : l.any (·.isFailedLike)
        · simp [hany]
        · simp [hany]
      exact hne' h
    · intro h
      have hall : l.all (· == Status.success) = true := by
        rw [List.all_eq_true]
        intro s hs
        simpa using h s hs
      simp [evalTrigger, hall]
  · intro l hl
    have hany : l.any (·.isFailedLike) = true := by
      rw [List.any_eq_true]
      rcases hl with h | h
      · exact ⟨.failed, h, rfl⟩
      · exact ⟨.upstreamFailed, h, rfl⟩
    have hall : l.all (· == Status.success) = false := by
      rw [List.all_eq_false]
      rcases hl with h | h
      · exact ⟨.failed, h, by decide⟩
      · exact ⟨.upstreamFailed, h, by decide⟩
    simp [evalTrigger, hany, hall]
  · intro l hsk hnofail
    have hany : l.any (·.isFailedLike) = false := by
      rw [List.any_eq_false]
      intro s hs
      simp [hnofail s hs]
    have hall : l.all (· == Status.success) = false := by
      rw [List.all_eq_false]
      exact ⟨.skipped, hsk, by decide⟩
    simp [evalTrigger, hany, hall]
  · intro o₁ o₂ st t h
    exact execTask_congr_outcome pipelineGraph pipelineRules o₁ o₂ st t h

/-- C4 witness: the `AllSuccess` facts at concrete inputs: the rule of the
group member `dbt_tasks.dbt_test`, firing on all-success predecessors,
`UpstreamFailed` on `{Success, Failed}`, `Skipped` on `{Success, Skipped}`,
and outcome-independence of a step of the concrete pipeline at a
non-firing task. -/
theorem claim_C4_witness :
    pipelineRules "dbt_tasks.dbt_test" = .allSuccess ∧
    evalTrigger .allSuccess [.success, .success] = .fire ∧
    evalTrigger .allSuccess [.success, .failed] = .markUpstreamFailed ∧
    evalTrigger .allSuccess [.success, .skipped] = .markSkipped ∧
    execTask pipelineGraph pipelineRules (fun _ => .ok)
        (setStatus (fun _ => .pending) "dbt_tasks.dbt_test" .failed) "quality_gate"
      = execTask pipelineGraph pipelineRules (fun _ => .fail)
        (setStatus (fun _ => .pending) "dbt_tasks.dbt_test" .failed) "quality_gate" :=
  ⟨claim_C4_all_success.2.2.1 "dbt_tasks.dbt_test" (by decide) (by decide),
   (claim_C4_all_success.2.2.2.1 [.success, .success]).mpr (by decide),
   claim_C4_all_success.2.2.2.2.1 [.success, .failed] (Or.inl (by decide)),
   claim_C4_all_success.2.2.2.2.2.1 [.success, .skipped] (by decide) (by decide),
   claim_C4_all_success.2.2.2.2.2.2.2 (fun _ => .ok) (fun _ => .fail) _ "quality_gate"
     (by decide)⟩

/-- C5.  Every task of the ETL DAG is configured with `retries = 2` through
`default_args`; a task whose action fails on attempts 0 and 1 and succeeds
on attempt 2 ends `Success` with exactly 3 invocations, and a task whose
action never succeeds ends `Failed` after `retries + 1` invocations. -/
theorem claim_C5_retries :
    etl_default_args.retries = 2 ∧
    (∀ action : Nat → Bool, action 0 = false → action 1 = false →
      action 2 = true →
      runWithRetries action etl_default_args.retries 0 = (.success, 3)) ∧
    (∀ (action : Nat → Bool) (retries : Nat), (∀ k, action k = false) →
      runWithRetries action retries 0 = (.failed, retries + 1)) := by
  refine ⟨rfl, ?_, ?_⟩
  · intro action h0 h1 h2
    show runWithRetries action 2 0 = (.success, 3)
    rw [runWithRetries, h0]
    show runWithRetries action 1 1 = (.success, 3)
    rw [runWithRetries, h1]
    show runWithRetries action 0 2 = (.success, 3)
    rw [runWithRetries, h2]
    exact rfl
  · intro action retries hfail
    have key : ∀ r a, runWithRetries action r a = (.failed, a + r + 1) := by
      intro r
      induction r with
      | zero =>
        intro a
        rw [runWithRetries, hfail a]
        exact rfl
      | succ n ih =>
        intro a
        rw [runWithRetries, hfail a]
        show runWithRetries action n (a + 1) = (Status.failed, a + (n + 1) + 1)
        rw [ih (a + 1)]
        have harith : a + 1 + n + 1 = a + (n + 1) + 1 := by omega
        rw [harith]
    have := key retries 0
    rwa [Nat.zero_add] at this

/-- C5 witness: a concrete action failing twice then succeeding is invoked
3 times and ends `Success`; a concrete always-failing action with 2 retries
ends `Failed` after 3 invocations. -/
theorem claim_C5_witness :
    runWithRetries (fun k => decide (2 ≤ k)) 2 0 = (.success, 3) ∧
    runWithRetries (fun _ => false) 2 0 = (.failed, 3) :=
  ⟨claim_C5_retries.2.1 (fun k => decide (2 ≤ k)) (by decide) (by decide) (by decide),
   claim_C5_retries.2.2 (fun _ => false) 2 (fun _ => rfl)⟩

/-- C6.  Run Context round trip: reading a key that was never published
fails `KeyNotFound`; publishing a value and reading the same key back
returns exactly that value; in particular for the `'dataset_path'` key that
`download_kaggle_dataset` publishes and `load_to_postgres` reads back. -/
theorem claim_C6_run_context :
    (∀ (α : Type) (ctx : RunCtx α) (taskId key : String),
      List.lookup (taskId, key) ctx = none →
      ctxRead ctx taskId key = .error .keyNotFound) ∧
    (∀ (α : Type) (ctx ctx' : RunCtx α) (taskId key : String) (v : α),
      ctxPublish ctx taskId key v = .ok ctx' →
      ctxRead ctx' taskId key = .ok v) ∧
    (∀ v : String,
      ctxRead ([] : RunCtx String) dataset_path_producer dataset_path_key
        = .error .keyNotFound ∧
      ctxPublish ([] : RunCtx String) dataset_path_producer dataset_path_key v
        = .ok [((dataset_path_producer, dataset_path_key), v)] ∧
      ctxRead [((dataset_path_producer, dataset_path_key), v)]
          dataset_path_producer dataset_path_key = .ok v) := by
  refine ⟨?_, ?_, ?_⟩
  · intro α ctx taskId key h
    simp [ctxRead, h]
  · intro α ctx ctx' taskId key v h
    rw [ctxPublish] at h
    cases hl : List.lookup (taskId, key) ctx with
    | some w => rw [hl] at h; cases h
    | none =>
      rw [hl] at h
      cases h
      simp [ctxRead, List.lookup]
  · intro v
    exact ⟨rfl, rfl, by simp [ctxRead, List.lookup]⟩

/-- C6 witness: the Run Context facts at the concrete `'dataset_path'` key
and a concrete dataset path value. -/
theorem claim_C6_witness :
    ctxRead ([] : RunCtx String) "extract.download_kaggle_data" "dataset_path"
      = .error .keyNotFound ∧
    ctxRead [((("extract.download_kaggle_data" : String), ("dataset_path" : String)),
        ("/home/airflow/.cache/kagglehub/datasets" : String))]
      "extract.download_kaggle_data" "dataset_path"
      = .ok "/home/airflow/.cache/kagglehub/datasets" :=
  ⟨claim_C6_run_context.1 String [] "extract.download_kaggle_data" "dataset_path" rfl,
   claim_C6_run_context.2.1 String [] _ "extract.download_kaggle_data" "dataset_path"
     "/home/airflow/.cache/kagglehub/datasets" rfl⟩

/-- C1 counterexample.  Failing `load.load_to_postgres` (with `start`
succeeding) puts the run in exactly the situation the claim describes —
`quality_gate` resolves `UpstreamFailed`, `quality_passed` and
`quality_failed` resolve `UpstreamFailed` — yet the `end` task does NOT
reach `Success`: its `NoneFailedMinOneSuccess` rule sees `UpstreamFailed`
predecessors and resolves `UpstreamFailed` as well. -/
theorem claim_C1_counterexample :
    runSched pipelineGraph pipelineRules (failOnly "load.load_to_postgres")
        pipelineTasks "start" = .success ∧
    runSched pipelineGraph pipelineRules (failOnly "load.load_to_postgres")
        pipelineTasks "load.load_to_postgres" = .failed ∧
    runSched pipelineGraph pipelineRules (failOnly "load.load_to_postgres")
        pipelineTasks "quality_gate" = .upstreamFailed ∧
    runSched pipelineGraph pipelineRules (failOnly "load.load_to_postgres")
        pipelineTasks "quality_passed" = .upstreamFailed ∧
    runSched pipelineGraph pipelineRules (failOnly "load.load_to_postgres")
        pipelineTasks "quality_failed" = .upstreamFailed ∧
    ¬ runSched pipelineGraph pipelineRules (failOnly "load.load_to_postgres")
        pipelineTasks "end" = .success := by
  refine ⟨?_, ?_, ?_, ?_, ?_, ?_⟩ <;> decide

/-- C1 (amended).  Whenever some task strictly upstream of the quality
gate fails while `start` succeeds, `quality_gate` resolves
`UpstreamFailed` without running (the step at a non-firing task is
independent of the outcome function), `quality_passed` and
`quality_failed` both resolve `UpstreamFailed`, and the `end` task — its
`NoneFailedMinOneSuccess` rule seeing only `UpstreamFailed`
predecessors — resolves `UpstreamFailed` rather than `Success`. -/
theorem claim_C1_amended (u : String) (hu : u ∈ gateUpstream) :
    (runSched pipelineGraph pipelineRules (failOnly u) pipelineTasks "start"
        = .success ∧
      runSched pipelineGraph pipelineRules (failOnly u) pipelineTasks u
        = .failed ∧
      runSched pipelineGraph pipelineRules (failOnly u) pipelineTasks "quality_gate"
        = .upstreamFailed ∧
      runSched pipelineGraph pipelineRules (failOnly u) pipelineTasks "quality_passed"
        = .upstreamFailed ∧
      runSched pipelineGraph pipelineRules (failOnly u) pipelineTasks "quality_failed"
        = .upstreamFailed ∧
      runSched pipelineGraph pipelineRules (failOnly u) pipelineTasks "end"
        = .upstreamFailed) ∧
    (∀ (o₁ o₂ : String → ActionResult) (st : StatusMap) (t : String),
      evalTrigger (pipelineRules t) ((pipelineGraph.preds t).map st) ≠ .fire →
      execTask pipelineGraph pipelineRules o₁ st t
        = execTask pipelineGraph pipelineRules o₂ st t) := by
  refine ⟨?_, fun o₁ o₂ st t h => execTask_congr_outcome pipelineGraph pipelineRules o₁ o₂ st t h⟩
  fin_cases hu <;> exact (by decide)

/-- C1 witness: the amended statement at the concrete upstream failure of
`dbt_tasks.dbt_run_marts`. -/
theorem claim_C1_witness :
    runSched pipelineGraph pipelineRules (failOnly "dbt_tasks.dbt_run_marts")
        pipelineTasks "quality_gate" = .upstreamFailed ∧
    runSched pipelineGraph pipelineRules (failOnly "dbt_tasks.dbt_run_marts")
        pipelineTasks "end" = .upstreamFailed :=
  ⟨(claim_C1_amended "dbt_tasks.dbt_run_marts" (by decide)).1.2.2.1,
   (claim_C1_amended "dbt_tasks.dbt_run_marts" (by decide)).1.2.2.2.2.2⟩

/-- C2.  Branch pruning on the ETL DAG: when every action succeeds and the
`quality_gate` resolver chooses `quality_passed`, the sibling
`quality_failed` resolves `Skipped` while the reporting subgraph and `end`
run to `Success`; symmetrically, when it chooses `quality_failed`, the
reporting tasks — reachable only through the pruned `quality_passed` — all
resolve `Skipped` via their `AllSuccess` rules, while `quality_failed`'s
side runs normally and `end` still reaches `Success`. -/
theorem claim_C2_branch_pruning :
    (runSched pipelineGraph pipelineRules (chooseBranch "quality_passed")
        pipelineTasks "quality_gate" = .success ∧
      runSched pipelineGraph pipelineRules (chooseBranch "quality_passed")
        pipelineTasks "quality_failed" = .skipped ∧
      runSched pipelineGraph pipelineRules (chooseBranch "quality_passed")
        pipelineTasks "quality_passed" = .success ∧
      runSched pipelineGraph pipelineRules (chooseBranch "quality_passed")
        pipelineTasks "reporting.generate_dq_report" = .success ∧
      runSched pipelineGraph pipelineRules (chooseBranch "quality_passed")
        pipelineTasks "reporting.generate_docs" = .success ∧
      runSched pipelineGraph pipelineRules (chooseBranch "quality_passed")
        pipelineTasks "end" = .success) ∧
    (runSched pipelineGraph pipelineRules (chooseBranch "quality_failed")
        pipelineTasks "quality_gate" = .success ∧
      runSched pipelineGraph pipelineRules (chooseBranch "quality_failed")
        pipelineTasks "quality_passed" = .skipped ∧
      runSched pipelineGraph pipelineRules (chooseBranch "quality_failed")
        pipelineTasks "quality_failed" = .success ∧
      runSched pipelineGraph pipelineRules (chooseBranch "quality_failed")
        pipelineTasks "reporting.generate_dq_report" = .skipped ∧
      runSched pipelineGraph pipelineRules (chooseBranch "quality_failed")
        pipelineTasks "reporting.generate_docs" = .skipped ∧
      runSched pipelineGraph pipelineRules (chooseBranch "quality_failed")
        pipelineTasks "end" = .success) := by
  constructor <;> refine ⟨?_, ?_, ?_, ?_, ?_, ?_⟩ <;> decide

/-- C7.  For any outcome assignment and any task of the ETL DAG, a full run
over the declared (topological) order resolves the task to a terminal
status; once a task is terminal after some prefix of the run it keeps
exactly that status to the end (assigned once, no regression); and by the
time a task is processed, every one of its direct predecessors is already
terminal. -/
theorem claim_C7_run_invariants (outcome : String → ActionResult) (t : String)
    (ht : t ∈ pipelineTasks) :
    (runSched pipelineGraph pipelineRules outcome pipelineTasks t).isTerminal
        = true ∧
    (∀ l₁ l₂ : List String, pipelineTasks = l₁ ++ l₂ → ∀ x : String,
      (runSched pipelineGraph pipelineRules outcome l₁ x).isTerminal = true →
      runSched pipelineGraph pipelineRules outcome pipelineTasks x
        = runSched pipelineGraph pipelineRules outcome l₁ x) ∧
    (∀ l₁ l₂ : List String, pipelineTasks = l₁ ++ t :: l₂ →
      ∀ p ∈ pipelineGraph.preds t,
        (runSched pipelineGraph pipelineRules outcome l₁ p).isTerminal = true) := by
  refine ⟨?_, ?_, ?_⟩
  · rw [isTerminal_iff_ne_pending]
    exact runFrom_mem_ne_pending pipelineGraph pipelineRules outcome
      pipelineTasks _ t ht
  · intro l₁ l₂ heq x hx
    rw [isTerminal_iff_ne_pending] at hx
    rw [heq, runSched_append]
    exact runFrom_of_ne_pending pipelineGraph pipelineRules outcome l₂ _ x hx
  · intro l₁ l₂ heq p hp
    have hpl : p ∈ l₁ :=
      topoOrder_split pipelineGraph pipelineTasks l₁ l₂ t pipeline_topoOrder heq p hp
    rw [isTerminal_iff_ne_pending]
    exact runFrom_mem_ne_pending pipelineGraph pipelineRules outcome l₁ _ p hpl

/-- C7 witness: the invariants at the concrete all-success quality-passed
run, for the `end` task: its final status is terminal, and when `end` comes
up for processing (after the 15-task prefix) its predecessor
`quality_failed` is already terminal. -/
theorem claim_C7_witness :
    (runSched pipelineGraph pipelineRules (chooseBranch "quality_passed")
        pipelineTasks "end").isTerminal = true ∧
    (runSched pipelineGraph pipelineRules (chooseBranch "quality_passed")
        ["start", "extract.download_kaggle_data", "load.ensure_raw_schema",
         "load.load_to_postgres", "dbt_tasks.dbt_deps", "dbt_tasks.dbt_seed",
         "dbt_tasks.dbt_run_staging", "dbt_tasks.dbt_run_intermediate",
         "dbt_tasks.dbt_run_marts", "dbt_tasks.dbt_test", "quality_gate",
         "quality_passed", "quality_failed", "reporting.generate_dq_report",
         "reporting.generate_docs"] "quality_failed").isTerminal = true :=
  ⟨(claim_C7_run_invariants (chooseBranch "quality_passed") "end" (by decide)).1,
   (claim_C7_run_invariants (chooseBranch "quality_passed") "end" (by decide)).2.2
     ["start", "extract.download_kaggle_data", "load.ensure_raw_schema",
      "load.load_to_postgres", "dbt_tasks.dbt_deps", "dbt_tasks.dbt_seed",
      "dbt_tasks.dbt_run_staging", "dbt_tasks.dbt_run_intermediate",
      "dbt_tasks.dbt_run_marts", "dbt_tasks.dbt_test", "quality_gate",
      "quality_passed", "quality_failed", "reporting.generate_dq_report",
      "reporting.generate_docs"] [] (by decide) "quality_failed" (by decide)⟩

/-- C8.  The branch callable `check_data_quality_gate` returns one of the
two strings `'quality_passed'` and `'quality_failed'` on every input, and
both returned ids are declared direct successors of the `quality_gate`
task, so the branch target is always valid (`InvalidBranchTarget` is
unreachable for this gate). -/
theorem claim_C8_branch_targets :
    (∀ o : Option String,
      check_data_quality_gate o = "quality_passed" ∨
        check_data_quality_gate o = "quality_failed") ∧
    pipelineGraph.succs "quality_gate" = ["quality_passed", "quality_failed"] ∧
    (∀ o : Option String,
      check_data_quality_gate o ∈ pipelineGraph.succs "quality_gate") := by
  have hsucc : pipelineGraph.succs "quality_gate"
      = ["quality_passed", "quality_failed"] := by decide
  have hcases : ∀ o : Option String,
      check_data_quality_gate o = "quality_passed" ∨
        check_data_quality_gate o = "quality_failed" := by
    intro o
    rw [check_data_quality_gate]
    by_cases h : (pyTruthy o && !strContainsSub (pyUpper (pyStr o)) "FAIL") = true
    · left; rw [if_pos h]
    · right; rw [if_neg h]
  refine ⟨hcases, hsucc, ?_⟩
  intro o
  rw [hsucc]
  rcases hcases o with h | h <;> rw [h] <;> simp

/-- C9.  The `dbt_test` bash command ends in `|| true` for every value of
`DBT_PROJECT_DIR`, so the task succeeds whatever the inner `dbt test` exit
code is; consequently a dbt test failure cannot resolve `quality_gate` —
whose sole predecessor is `dbt_tasks.dbt_test` and whose `AllSuccess` rule
fires on a succeeded predecessor — to `UpstreamFailed`; test failures are
routed only through the gate's branch choice, which is `'quality_failed'`
whenever the pulled output is `None` or contains `'FAIL'`
case-insensitively. -/
theorem claim_C9_dbt_test_never_fails :
    (∀ d : String, strEndsWithSub (dbt_test_bash_command d) "|| true" = true) ∧
    (∀ (d : String) (e : Nat), bashTaskStatus (dbt_test_bash_command d) e = .success) ∧
    pipelineGraph.preds "quality_gate" = ["dbt_tasks.dbt_test"] ∧
    evalTrigger (pipelineRules "quality_gate") [.success] = .fire ∧
    check_data_quality_gate none = "quality_failed" ∧
    (∀ s : String, strContainsSub (pyUpper s) "FAIL" = true →
      check_data_quality_gate (some s) = "quality_failed") := by
  have hsuffix : ∀ d : String,
      strEndsWithSub (dbt_test_bash_command d) "|| true" = true := by
    intro d
    show List.isSuffixOf "|| true".data (dbt_test_bash_command d).data = true
    rw [List.isSuffixOf_iff_suffix]
    show "|| true".data <:+
      ("cd " ++ d ++ " && dbt test --profiles-dir " ++ d ++
        " --store-failures || true").data
    simp only [String.data_append, List.append_assoc]
    apply suffix_extend
    apply suffix_extend
    apply suffix_extend
    apply suffix_extend
    decide
  refine ⟨hsuffix, ?_, by decide, rfl, rfl, ?_⟩
  · intro d e
    rw [bashTaskStatus, hsuffix d]
    rfl
  · intro s h
    rw [check_data_quality_gate]
    have : (pyTruthy (some s) && !strContainsSub (pyUpper (pyStr (some s))) "FAIL")
        = false := by
      show (pyTruthy (some s) && !strContainsSub (pyUpper s) "FAIL") = false
      rw [h]
      simp
    rw [this]
    rfl

/-- C9 witness: the routing facts at concrete inputs — the command with the
default `DBT_PROFILES_DIR`, a non-zero inner exit code, and an output
containing a lower-case `fail`. -/
theorem claim_C9_witness :
    bashTaskStatus (dbt_test_bash_command "/opt/airflow/dbt") 1 = .success ∧
    check_data_quality_gate (some "2 tests failed") = "quality_failed" :=
  ⟨claim_C9_dbt_test_never_fails.2.1 "/opt/airflow/dbt" 1,
   claim_C9_dbt_test_never_fails.2.2.2.2.2 "2 tests failed" (by decide)⟩

/-- C10.  `collect_dq_metrics` always produces a metrics dictionary
carrying the given `run_id` and `run_timestamp` (and a `dimensions`
mapping); every metrics query and every insert is guarded, so when all
database operations raise, the callable still completes, with an empty
`dimensions` mapping and no attempted inserts. -/
theorem claim_C10_collect_dq_metrics :
    (∀ (oracle : DbOracle) (rid ts : String),
      (collect_dq_metrics oracle rid ts).1.run_id = rid ∧
        (collect_dq_metrics oracle rid ts).1.run_timestamp = ts) ∧
    (∀ (oracle : DbOracle) (rid ts : String) (e₁ e₂ e₃ : String),
      oracle.completenessQuery = .error e₁ →
      oracle.uniquenessQuery = .error e₂ →
      oracle.accuracyQuery = .error e₃ →
      (collect_dq_metrics oracle rid ts).1.dimensions = [] ∧
        (collect_dq_metrics oracle rid ts).2 = []) := by
  constructor
  · intro oracle rid ts
    exact ⟨rfl, rfl⟩
  · intro oracle rid ts e₁ e₂ e₃ h₁ h₂ h₃
    rw [collect_dq_metrics]
    rw [h₁, h₂, h₃]
    exact ⟨rfl, rfl⟩

/-- C10 witness: the all-failing oracle still yields a metrics dictionary
with the given run id and empty dimensions. -/
theorem claim_C10_witness :
    (collect_dq_metrics failingOracle "manual__2024-01-01" "2024-01-01T00:00:00").1.run_id
      = "manual__2024-01-01" ∧
    (collect_dq_metrics failingOracle "manual__2024-01-01" "2024-01-01T00:00:00").1.dimensions
      = [] :=
  ⟨(claim_C10_collect_dq_metrics.1 failingOracle "manual__2024-01-01"
      "2024-01-01T00:00:00").1,
   (claim_C10_collect_dq_metrics.2 failingOracle "manual__2024-01-01"
      "2024-01-01T00:00:00" "connection refused" "connection refused"
      "connection refused" rfl rfl rfl).1⟩
